import Mathlib

/-!
# Verification of the timing recorder (`src/profiler.py`)

Shallow embedding of the profiling library. Timestamps are modelled as
rationals; each call the Python code makes to `time.time()` is modelled as
reading one value from a clock stream `clk : Nat → Rat` at an explicit
counter position, so two successive reads may return different values.
The file-system and printing side effects are out of the model; the pure
data computed by each operation is embedded faithfully.
-/

/-- Metadata mapping (`**metadata` kwargs in Python), modelled as an
association list of string keys and values. -/
abbrev Metadata := List (String × String)

/-- `TimingRecord` dataclass (profiler.py lines 14-21): one completed
measurement. -/
structure TimingRecord where
  name : String
  start_time : Rat
  end_time : Rat
  duration : Rat
  metadata : Metadata
deriving DecidableEq

/-- Dictionary form of a record (`TimingRecord.to_dict`, lines 23-30).
The Python code renders `start_time`/`end_time` through
`datetime.fromtimestamp(...).isoformat()`, an injective rendering of the
stored epoch value; the model keeps the epoch value itself. -/
structure RecordDict where
  name : String
  start_time : Rat
  end_time : Rat
  duration_seconds : Rat
  metadata : Metadata
deriving DecidableEq

/-- Python `round(x, 3)`: rounding to 3 decimal places (the float
tie-breaking detail is immaterial to every claim, which only require a
fixed 3-decimal rounding function). -/
def round3 (x : Rat) : Rat := (round (x * 1000) : Rat) / 1000

/-- `TimingRecord.to_dict` (lines 23-30). -/
def TimingRecord.to_dict (r : TimingRecord) : RecordDict :=
  { name := r.name
    start_time := r.start_time
    end_time := r.end_time
    duration_seconds := round3 r.duration
    metadata := r.metadata }

/-- `Profiler` state (lines 53-56): enabled flag, completed records,
stack of in-flight scope names (pushed at the end, popped from the end,
as the Python list is used). -/
structure Profiler where
  enabled : Bool
  records : List TimingRecord
  scopeStack : List String
deriving DecidableEq

/-- `Profiler.__init__` (lines 53-56). -/
def mkProfiler (enabled : Bool) : Profiler :=
  { enabled := enabled, records := [], scopeStack := [] }

/-- Does `pat` occur as a leading segment of `l`? (helper for the Python
substring test). -/
def leadSeg : List Char → List Char → Bool
  | [], _ => true
  | _ :: _, [] => false
  | p :: ps, c :: cs => p == c && leadSeg ps cs

/-- Does `pat` occur as a contiguous segment of `l`? -/
def hasSeg (pat : List Char) : List Char → Bool
  | [] => leadSeg pat []
  | c :: cs => leadSeg pat (c :: cs) || hasSeg pat cs

/-- Python `pat in hay` on strings: substring containment. -/
def strContains (hay pat : String) : Bool :=
  hasSeg pat.toList hay.toList

/-- The checkpoint filter used by `print_summary` (lines 142, 148, 177,
186) and `get_stats` (line 212): Python `"CHECKPOINT" in record.name`,
a substring test, not a prefix test. -/
def isCheckpointName (name : String) : Bool :=
  strContains name "CHECKPOINT"

/-- Characters before the first occurrence of the segment `sep`, or the
whole list if `sep` does not occur. -/
def takeUntilSeg (sep : List Char) : List Char → List Char
  | [] => []
  | c :: cs => if leadSeg sep (c :: cs) then [] else c :: takeUntilSeg sep cs

/-- Top-level operation name: `record.name.split(" > ")[0]` (lines 152,
215), i.e. everything before the first occurrence of the separator
`" > "` (the whole name when the separator is absent). -/
def topLevel (name : String) : String :=
  String.mk (takeUntilSeg " > ".toList name.toList)

/-- Qualified name computed on scope entry (line 72):
`" > ".join(self._stack + [name]) if self._stack else name`. -/
def fullNameOf (stack : List String) (name : String) : String :=
  if stack = [] then name else String.intercalate " > " (stack ++ [name])

/-- Entry half of `Profiler.time` when enabled (lines 72-73): compute the
qualified name from the current stack, then push the new name. Returns
the new state and the qualified name. -/
def Profiler.timeEnter (p : Profiler) (name : String) : Profiler × String :=
  ({ p with scopeStack := p.scopeStack ++ [name] }, fullNameOf p.scopeStack name)

/-- Exit half of `Profiler.time` (the `finally` block, lines 78-90):
build the record from the captured qualified name, start and end
timestamps, append it, and pop the stack. Runs on every exit path. -/
def Profiler.timeExit (p : Profiler) (full_name : String) (meta : Metadata)
    (start endT : Rat) : Profiler :=
  { p with
    records := p.records ++
      [{ name := full_name
         start_time := start
         end_time := endT
         duration := endT - start
         metadata := meta }]
    scopeStack := p.scopeStack.dropLast }

/-- `Profiler.checkpoint` (lines 111-129). `t1` and `t2` are the results
of the two separate `time.time()` calls on lines 123-124. -/
def Profiler.checkpoint (p : Profiler) (name : String) (meta : Metadata)
    (t1 t2 : Rat) : Profiler :=
  if !p.enabled then p
  else
    { p with
      records := p.records ++
        [{ name := "CHECKPOINT: " ++ name
           start_time := t1
           end_time := t2
           duration := 0
           metadata := meta }] }

/-- Per-group statistics returned by `get_stats` (lines 222-228). -/
structure OpStats where
  total : Rat
  count : Nat
  avg : Rat
  min : Rat
  max : Rat
deriving DecidableEq

/-- Python `min` over a nonempty list (default 0 on the empty list,
which `get_stats` never reaches since every group is nonempty). -/
def listMin : List Rat → Rat
  | [] => 0
  | d :: ds => ds.foldl Min.min d

/-- Python `max` over a nonempty list (default 0, unreachable in
`get_stats`). -/
def listMax : List Rat → Rat
  | [] => 0
  | d :: ds => ds.foldl Max.max d

/-- The stats dictionary built for one group's durations (lines
222-228). -/
def statsOfDurations (ds : List Rat) : OpStats :=
  { total := ds.sum
    count := ds.length
    avg := ds.sum / (ds.length : Rat)
    min := listMin ds
    max := listMax ds }

/-- Insertion-ordered grouping update: `by_operation[top_level].append
(duration)`, creating the key at the end on first sight, as a Python
dict does (lines 216-218). -/
def updGroup (acc : List (String × List Rat)) (key : String) (d : Rat) :
    List (String × List Rat) :=
  match acc with
  | [] => [(key, [d])]
  | (k, ds) :: rest =>
    if k = key then (k, ds ++ [d]) :: rest else (k, ds) :: updGroup rest key d

/-- The grouping loop of `get_stats` (lines 210-218): skip records whose
name contains "CHECKPOINT", group the rest by top-level name. -/
def groupDurations (records : List TimingRecord) : List (String × List Rat) :=
  records.foldl
    (fun acc r =>
      if isCheckpointName r.name then acc
      else updGroup acc (topLevel r.name) r.duration)
    []

/-- `Profiler.get_stats` (lines 205-230). -/
def Profiler.get_stats (p : Profiler) : List (String × OpStats) :=
  if p.records = [] then []
  else (groupDurations p.records).map fun g => (g.1, statsOfDurations g.2)

/-- The export payload built by `export_json` (lines 196-200); the JSON
serialization and file write are presentation. -/
structure ExportData where
  total_time : Rat
  num_operations : Nat
  records : List RecordDict
deriving DecidableEq

/-- `Profiler.export_json` (lines 194-203): total over ALL records
(checkpoints included), record count, and every record's dict form in
original order. -/
def Profiler.export_json (p : Profiler) : ExportData :=
  { total_time := (p.records.map TimingRecord.duration).sum
    num_operations := p.records.length
    records := p.records.map TimingRecord.to_dict }

/-- Per-operation aggregate built inside `print_summary` (lines
146-158): running total, call count, and the group's records. -/
structure OpAgg where
  total : Rat
  count : Nat
  records : List TimingRecord
deriving DecidableEq

/-- One step of the `by_operation` accumulation in `print_summary`
(lines 153-158); a fresh key starts from `(0.0, 0, [])` and is
immediately incremented, giving `(duration, 1, [r])`. -/
def updAgg (acc : List (String × OpAgg)) (key : String) (r : TimingRecord) :
    List (String × OpAgg) :=
  match acc with
  | [] => [(key, { total := 0 + r.duration, count := 0 + 1, records := [r] })]
  | (k, a) :: rest =>
    if k = key then
      (k, { total := a.total + r.duration, count := a.count + 1,
            records := a.records ++ [r] }) :: rest
    else (k, a) :: updAgg rest key r

/-- The grand total printed by `print_summary` (line 142): durations of
records whose name does NOT contain "CHECKPOINT". -/
def summaryTotalTime (records : List TimingRecord) : Rat :=
  ((records.filter fun r => !isCheckpointName r.name).map TimingRecord.duration).sum

/-- The `by_operation` grouping of `print_summary` (lines 146-158). -/
def summaryByOperation (records : List TimingRecord) : List (String × OpAgg) :=
  records.foldl
    (fun acc r =>
      if isCheckpointName r.name then acc
      else updAgg acc (topLevel r.name) r)
    []

/-- Stable insertion of a record into a duration-descending list
(models `sorted(key=lambda x: -x.duration)` on line 178; no claim
depends on tie order). -/
def insertByDur (r : TimingRecord) : List TimingRecord → List TimingRecord
  | [] => [r]
  | x :: xs => if x.duration < r.duration then r :: x :: xs else x :: insertByDur r xs

/-- Duration-descending sort. -/
def sortByDurDesc (records : List TimingRecord) : List TimingRecord :=
  records.foldr insertByDur []

/-- The slowest-records list of `print_summary` (lines 177-178):
non-checkpoint records, duration-descending, first 10. -/
def summarySlowest (records : List TimingRecord) : List TimingRecord :=
  (sortByDurDesc (records.filter fun r => !isCheckpointName r.name)).take 10

/-- The checkpoints section of `print_summary` (line 186). -/
def summaryCheckpoints (records : List TimingRecord) : List TimingRecord :=
  records.filter fun r => isCheckpointName r.name

/-- `get_profiler` (lines 237-242) acting on the module-level cell
`_global_profiler : Option Profiler`: lazily constructs an enabled
profiler on first use. Returns the new cell value and the profiler. -/
def get_profiler (g : Option Profiler) : Option Profiler × Profiler :=
  match g with
  | none => (some (mkProfiler true), mkProfiler true)
  | some p => (some p, p)

/-- `enable_profiling` (lines 245-248): replaces the global cell with a
fresh enabled profiler. -/
def enable_profiling (_g : Option Profiler) : Option Profiler :=
  some (mkProfiler true)

/-- `disable_profiling` (lines 251-255): `if _global_profiler:` is true
exactly when the cell is non-None (Profiler defines no truthiness
overrides), in which case the enabled flag is cleared in place. -/
def disable_profiling (g : Option Profiler) : Option Profiler :=
  match g with
  | none => none
  | some p => some { p with enabled := false }

/-- Client programs over one profiler: properly nested `with
profiler.time(...)` scopes, checkpoints, sequencing, and a wrapped block
that raises. The tree shape enforces the proper pairing that Python's
`with` statement provides. -/
inductive Prog where
  | skip : Prog
  | raiseErr : Prog
  | seq : Prog → Prog → Prog
  | cp : String → Metadata → Prog
  | scope : String → Metadata → Prog → Prog
deriving DecidableEq

/-- Interpreter for `Prog`, embedding `Profiler.time` (lines 58-94) and
`Profiler.checkpoint` (lines 111-129). `clk` is the clock stream and `k`
the next read position; each `time.time()` call the Python code makes
consumes one position. Returns the profiler, the next clock position,
and whether an exception is propagating. When disabled, `time` is a pure
pass-through around the body (lines 67-69) and `checkpoint` returns at
once (lines 118-119): no clock read, no state change. -/
def runProg : Prog → Profiler → (Nat → Rat) → Nat → Profiler × Nat × Bool
  | .skip, p, _, k => (p, k, false)
  | .raiseErr, p, _, k => (p, k, true)
  | .seq a b, p, clk, k =>
    let r := runProg a p clk k
    if r.2.2 then r else runProg b r.1 clk r.2.1
  | .cp n m, p, clk, k =>
    if p.enabled then (p.checkpoint n m (clk k) (clk (k + 1)), k + 2, false)
    else (p, k, false)
  | .scope n m body, p, clk, k =>
    if p.enabled then
      let e := p.timeEnter n
      let start := clk k
      let r := runProg body e.1 clk (k + 1)
      (r.1.timeExit e.2 m start (clk r.2.1), r.2.1 + 1, r.2.2)
    else
      runProg body p clk k

/-- Whether a program's own code raises: the timing machinery re-raises
the body's failure unchanged, and `seq` stops at the first failure. -/
def raisesB : Prog → Bool
  | .skip => false
  | .raiseErr => true
  | .seq a b => raisesB a || raisesB b
  | .cp _ _ => false
  | .scope _ _ body => raisesB body

/-- Programs made only of properly paired scoped-timing calls (no
checkpoints, no failures). -/
def timingOnly : Prog → Bool
  | .skip => true
  | .raiseErr => false
  | .seq a b => timingOnly a && timingOnly b
  | .cp _ _ => false
  | .scope _ _ body => timingOnly body

/-- Number of scoped-timing calls in a program. -/
def countScopes : Prog → Nat
  | .skip => 0
  | .raiseErr => 0
  | .seq a b => countScopes a + countScopes b
  | .cp _ _ => 0
  | .scope _ _ body => countScopes body + 1

lemma checkpoint_enabled (p : Profiler) (n : String) (m : Metadata) (t1 t2 : Rat) :
    (p.checkpoint n m t1 t2).enabled = p.enabled := by
  cases hp : p.enabled <;> simp [Profiler.checkpoint, hp]

lemma checkpoint_stack (p : Profiler) (n : String) (m : Metadata) (t1 t2 : Rat) :
    (p.checkpoint n m t1 t2).scopeStack = p.scopeStack := by
  cases hp : p.enabled <;> simp [Profiler.checkpoint, hp]

/-- No operation toggles the enabled flag. -/
lemma runProg_enabled (prog : Prog) :
    ∀ (p : Profiler) (clk : Nat → Rat) (k : Nat),
      (runProg prog p clk k).1.enabled = p.enabled := by
  induction prog with
  | skip => intro p clk k; rfl
  | raiseErr => intro p clk k; rfl
  | seq a b iha ihb =>
    intro p clk k
    simp only [runProg]
    cases h : (runProg a p clk k).2.2 <;> simp [h, iha, ihb]
  | cp n m =>
    intro p clk k
    cases hp : p.enabled <;> simp [runProg, hp, checkpoint_enabled]
  | scope n m body ih =>
    intro p clk k
    cases hp : p.enabled <;>
      simp [runProg, hp, Profiler.timeExit, Profiler.timeEnter, ih]

/-- The scope stack returns to its pre-call value after any program,
on every exit path (the pop happens in the `finally` block). -/
lemma runProg_stack (prog : Prog) :
    ∀ (p : Profiler) (clk : Nat → Rat) (k : Nat),
      (runProg prog p clk k).1.scopeStack = p.scopeStack := by
  induction prog with
  | skip => intro p clk k; rfl
  | raiseErr => intro p clk k; rfl
  | seq a b iha ihb =>
    intro p clk k
    simp only [runProg]
    cases h : (runProg a p clk k).2.2 <;> simp [h, iha, ihb]
  | cp n m =>
    intro p clk k
    cases hp : p.enabled <;> simp [runProg, hp, checkpoint_stack]
  | scope n m body ih =>
    intro p clk k
    cases hp : p.enabled <;>
      simp [runProg, hp, Profiler.timeExit, Profiler.timeEnter, ih]

/-- The timing machinery neither swallows nor invents failures: the
propagating-exception flag after a program is exactly whether the
program's own code raised. -/
lemma runProg_exn (prog : Prog) :
    ∀ (p : Profiler) (clk : Nat → Rat) (k : Nat),
      (runProg prog p clk k).2.2 = raisesB prog := by
  induction prog with
  | skip => intro p clk k; rfl
  | raiseErr => intro p clk k; rfl
  | seq a b iha ihb =>
    intro p clk k
    simp only [runProg]
    have ha := iha p clk k
    cases h : (runProg a p clk k).2.2 <;>
      rw [h] at ha <;> simp [h, raisesB, ← ha, ihb]
  | cp n m =>
    intro p clk k
    cases hp : p.enabled <;> simp [runProg, hp, raisesB]
  | scope n m body ih =>
    intro p clk k
    cases hp : p.enabled <;> simp [runProg, hp, raisesB, ih]

/-- The clock position never moves backwards. -/
lemma runProg_counter_le (prog : Prog) :
    ∀ (p : Profiler) (clk : Nat → Rat) (k : Nat),
      k ≤ (runProg prog p clk k).2.1 := by
  induction prog with
  | skip => intro p clk k; exact Nat.le_refl k
  | raiseErr => intro p clk k; exact Nat.le_refl k
  | seq a b iha ihb =>
    intro p clk k
    simp only [runProg]
    cases h : (runProg a p clk k).2.2
    · simp only [h, Bool.false_eq_true, if_false]
      exact Nat.le_trans (iha p clk k) (ihb _ clk _)
    · simp only [h, if_true]
      exact iha p clk k
  | cp n m =>
    intro p clk k
    cases hp : p.enabled <;> simp [runProg, hp]
  | scope n m body ih =>
    intro p clk k
    cases hp : p.enabled
    · simp only [runProg, hp, Bool.false_eq_true, if_false]
      exact ih p clk k
    · simp only [runProg, hp, if_true]
      have := ih (p.timeEnter n).1 clk (k + 1)
      omega

/-- When disabled, every operation is a pure pass-through: no record, no
stack mutation, no clock read, and the body's own failure status flows
through unchanged. -/
lemma runProg_disabled (prog : Prog) :
    ∀ (p : Profiler) (clk : Nat → Rat) (k : Nat), p.enabled = false →
      runProg prog p clk k = (p, k, raisesB prog) := by
  induction prog with
  | skip => intro p clk k _; rfl
  | raiseErr => intro p clk k _; rfl
  | seq a b iha ihb =>
    intro p clk k hp
    simp only [runProg, iha p clk k hp, ihb p clk k hp]
    cases h : raisesB a <;> simp [raisesB, h]
  | cp n m =>
    intro p clk k hp
    simp [runProg, hp, raisesB]
  | scope n m body ih =>
    intro p clk k hp
    simp [runProg, hp, raisesB, ih p clk k hp]

/-- Timing-only programs do not raise. -/
lemma timingOnly_not_raises (prog : Prog) :
    timingOnly prog = true → raisesB prog = false := by
  induction prog with
  | skip => intro; rfl
  | raiseErr => intro h; exact absurd h (by simp [timingOnly])
  | seq a b iha ihb =>
    intro h
    simp only [timingOnly, Bool.and_eq_true] at h
    simp [raisesB, iha h.1, ihb h.2]
  | cp n m => intro; rfl
  | scope n m body ih =>
    intro h
    simp only [timingOnly] at h
    simp [raisesB, ih h]

/-- With an enabled recorder, a timing-only program appends exactly one
record per scoped-timing call. -/
lemma runProg_records_len (prog : Prog) :
    ∀ (p : Profiler) (clk : Nat → Rat) (k : Nat),
      p.enabled = true → timingOnly prog = true →
      (runProg prog p clk k).1.records.length =
        p.records.length + countScopes prog := by
  induction prog with
  | skip => intro p clk k _ _; simp [runProg, countScopes]
  | raiseErr => intro p clk k _ h; exact absurd h (by simp [timingOnly])
  | seq a b iha ihb =>
    intro p clk k hp ht
    simp only [timingOnly, Bool.and_eq_true] at ht
    simp only [runProg]
    have ha : (runProg a p clk k).2.2 = false := by
      rw [runProg_exn, timingOnly_not_raises a ht.1]
    simp only [ha, Bool.false_eq_true, if_false]
    rw [ihb _ clk _ (by rw [runProg_enabled]; exact hp) ht.2,
      iha p clk k hp ht.1, countScopes]
    omega
  | cp n m =>
    intro p clk k _ ht
    exact absurd ht (by simp [timingOnly])
  | scope n m body ih =>
    intro p clk k hp ht
    simp only [timingOnly] at ht
    simp only [runProg, hp, if_true]
    simp only [Profiler.timeExit, List.length_append]
    rw [ih (p.timeEnter n).1 clk (k + 1) (by simp [Profiler.timeEnter, hp]) ht]
    simp only [Profiler.timeEnter, countScopes, List.length_singleton]
    omega

lemma isCheckpointName_marker (n : String) :
    isCheckpointName ("CHECKPOINT: " ++ n) = true := by
  simp [isCheckpointName, strContains, hasSeg, leadSeg, String.toList]

lemma groupDurations_concat_cp (rs : List TimingRecord) (r : TimingRecord)
    (h : isCheckpointName r.name = true) :
    groupDurations (rs ++ [r]) = groupDurations rs := by
  simp [groupDurations, List.foldl_append, h]

lemma get_stats_concat_cp (en : Bool) (st : List String)
    (rs : List TimingRecord) (r : TimingRecord)
    (h : isCheckpointName r.name = true) :
    (Profiler.mk en (rs ++ [r]) st).get_stats =
      (Profiler.mk en rs st).get_stats := by
  cases rs with
  | nil => simp [Profiler.get_stats, groupDurations, h]
  | cons x xs =>
    simp only [Profiler.get_stats]
    rw [if_neg (by simp), if_neg (by simp),
      groupDurations_concat_cp (x :: xs) r h]

lemma checkpoint_get_stats (p : Profiler) (n : String) (m : Metadata)
    (t1 t2 : Rat) :
    (p.checkpoint n m t1 t2).get_stats = p.get_stats := by
  cases hp : p.enabled with
  | false => simp [Profiler.checkpoint, hp]
  | true =>
    have hmk : p = Profiler.mk p.enabled p.records p.scopeStack := rfl
    simp only [Profiler.checkpoint, hp, Bool.not_true, Bool.false_eq_true,
      if_false]
    have := get_stats_concat_cp p.enabled p.scopeStack p.records
      { name := "CHECKPOINT: " ++ n, start_time := t1, end_time := t2,
        duration := 0, metadata := m }
      (isCheckpointName_marker n)
    rw [hmk]
    exact this

lemma summaryTotalTime_concat_cp (rs : List TimingRecord) (r : TimingRecord)
    (h : isCheckpointName r.name = true) :
    summaryTotalTime (rs ++ [r]) = summaryTotalTime rs := by
  simp [summaryTotalTime, List.filter_append, h]

lemma summaryByOperation_concat_cp (rs : List TimingRecord) (r : TimingRecord)
    (h : isCheckpointName r.name = true) :
    summaryByOperation (rs ++ [r]) = summaryByOperation rs := by
  simp [summaryByOperation, List.foldl_append, h]

lemma mem_insertByDur (x r : TimingRecord) (l : List TimingRecord) :
    x ∈ insertByDur r l → x = r ∨ x ∈ l := by
  induction l with
  | nil => intro hx; simp [insertByDur] at hx; exact Or.inl hx
  | cons y ys ih =>
    intro hx
    by_cases hc : y.duration < r.duration
    · simp [insertByDur, hc] at hx
      rcases hx with hx | hx | hx
      · exact Or.inl hx
      · exact Or.inr (by simp [hx])
      · exact Or.inr (by simp [hx])
    · simp [insertByDur, hc] at hx
      rcases hx with hx | hx
      · exact Or.inr (by simp [hx])
      · rcases ih hx with hx | hx
        · exact Or.inl hx
        · exact Or.inr (by simp [hx])

lemma mem_sortByDurDesc (x : TimingRecord) (rs : List TimingRecord) :
    x ∈ sortByDurDesc rs → x ∈ rs := by
  induction rs with
  | nil => intro hx; exact absurd hx (by simp [sortByDurDesc])
  | cons y ys ih =>
    intro hx
    rcases mem_insertByDur x y (sortByDurDesc ys) hx with h | h
    · simp [h]
    · simp [ih h]

lemma summarySlowest_not_cp (rs : List TimingRecord) (x : TimingRecord)
    (hx : x ∈ summarySlowest rs) : isCheckpointName x.name = false := by
  have h1 : x ∈ sortByDurDesc (rs.filter fun r => !isCheckpointName r.name) :=
    List.mem_of_mem_take hx
  have h2 := mem_sortByDurDesc x _ h1
  have := (List.mem_filter.mp h2).2
  simpa using this

lemma mem_summaryCheckpoints_concat (rs : List TimingRecord)
    (r : TimingRecord) (h : isCheckpointName r.name = true) :
    r ∈ summaryCheckpoints (rs ++ [r]) := by
  simp [summaryCheckpoints, List.filter_append, h]

lemma intercalate_pair (a b : String) :
    String.intercalate " > " [a, b] = a ++ " > " ++ b := rfl

lemma intercalate_triple (a b c : String) :
    String.intercalate " > " [a, b, c] = a ++ " > " ++ b ++ " > " ++ c := rfl

/-- Claim C1: for an enabled recorder with an empty scope stack, nesting
scopes A, B, C records qualified names "A > B > C", "A > B", "A" (the
" > "-join of the scope stack at entry with the new name), appended in
completion order: C's record first, then B's, then A's. -/
theorem c1_nested_qualified_names (a b c : String) (m1 m2 m3 : Metadata)
    (p : Profiler) (clk : Nat → Rat) (k : Nat)
    (hp : p.enabled = true) (hs : p.scopeStack = []) :
    ((runProg (.scope a m1 (.scope b m2 (.scope c m3 .skip))) p clk k).1.records.map
        TimingRecord.name =
      p.records.map TimingRecord.name ++
        [a ++ " > " ++ b ++ " > " ++ c, a ++ " > " ++ b, a]) ∧
    (runProg (.scope a m1 (.scope b m2 (.scope c m3 .skip))) p clk k).1.scopeStack
      = [] := by
  constructor
  · simp [runProg, hp, hs, Profiler.timeEnter, Profiler.timeExit, fullNameOf,
      intercalate_pair, intercalate_triple]
  · rw [runProg_stack]; exact hs

/-- Witness for C1 at concrete names and clock. -/
theorem c1_nested_qualified_names_witness :
    ((runProg (.scope "A" [] (.scope "B" [] (.scope "C" [] .skip)))
        (mkProfiler true) (fun i => (i : Rat)) 0).1.records.map
        TimingRecord.name = ["A > B > C", "A > B", "A"]) ∧
    (runProg (.scope "A" [] (.scope "B" [] (.scope "C" [] .skip)))
        (mkProfiler true) (fun i => (i : Rat)) 0).1.scopeStack = [] := by
  have h := c1_nested_qualified_names "A" "B" "C" [] [] []
    (mkProfiler true) (fun i => (i : Rat)) 0 rfl rfl
  exact ⟨by rw [h.1]; rfl, h.2⟩

/-- Claim C2: with an enabled recorder, a scoped-timing call whose body
raises propagates the failure unchanged, appends exactly one record
beyond those the body appended — carrying the partial duration from the
scope's start read to the end read taken in the cleanup — and restores
the scope stack to its pre-call value; the duration is nonnegative for a
monotone clock. -/
theorem c2_failure_cleanup (p : Profiler) (n : String) (m : Metadata)
    (body : Prog) (clk : Nat → Rat) (k : Nat)
    (hp : p.enabled = true) (hb : raisesB body = true) :
    ((runProg (.scope n m body) p clk k).2.2 = true) ∧
    ((runProg (.scope n m body) p clk k).1.records =
      (runProg body (p.timeEnter n).1 clk (k + 1)).1.records ++
        [{ name := fullNameOf p.scopeStack n
           start_time := clk k
           end_time := clk (runProg body (p.timeEnter n).1 clk (k + 1)).2.1
           duration :=
             clk (runProg body (p.timeEnter n).1 clk (k + 1)).2.1 - clk k
           metadata := m }]) ∧
    ((runProg (.scope n m body) p clk k).1.scopeStack = p.scopeStack) ∧
    (Monotone clk →
      0 ≤ clk (runProg body (p.timeEnter n).1 clk (k + 1)).2.1 - clk k) := by
  refine ⟨?_, ?_, runProg_stack _ p clk k, ?_⟩
  · rw [runProg_exn]; simpa [raisesB] using hb
  · simp [runProg, hp, Profiler.timeEnter, Profiler.timeExit]
  · intro hm
    have h1 : k ≤ (runProg body (p.timeEnter n).1 clk (k + 1)).2.1 :=
      Nat.le_trans (Nat.le_succ k) (runProg_counter_le body _ clk (k + 1))
    exact sub_nonneg.mpr (hm h1)

/-- Witness for C2: a scope around a raising body, concrete clock. -/
theorem c2_failure_cleanup_witness :
    ((runProg (.scope "A" [] .raiseErr) (mkProfiler true)
        (fun i => (i : Rat)) 0).2.2 = true) ∧
    ((runProg (.scope "A" [] .raiseErr) (mkProfiler true)
        (fun i => (i : Rat)) 0).1.records =
      [{ name := "A", start_time := 0, end_time := 1, duration := 1,
         metadata := [] }]) ∧
    ((runProg (.scope "A" [] .raiseErr) (mkProfiler true)
        (fun i => (i : Rat)) 0).1.scopeStack = []) := by
  have h := c2_failure_cleanup (mkProfiler true) "A" [] .raiseErr
    (fun i => (i : Rat)) 0 rfl rfl
  refine ⟨h.1, ?_, h.2.2.1⟩
  rw [h.2.1]
  norm_num [runProg, Profiler.timeEnter, mkProfiler, fullNameOf]

/-- Claim C3 counterexample: the two `time.time()` calls on lines
123-124 of `checkpoint` are separate clock reads, so with a clock that
advances between them the recorded start_time (0) and end_time (1)
differ, refuting "start_time and end_time are both equal to the current
time (start_time == end_time)". -/
theorem c3_checkpoint_counterexample :
    ((runProg (.cp "x" []) (mkProfiler true) (fun i => (i : Rat)) 0).1.records.map
      (fun r => (r.start_time, r.end_time)) = [((0 : Rat), (1 : Rat))]) ∧
    ((0 : Rat) ≠ (1 : Rat)) := by
  exact ⟨by decide, by decide⟩

/-- Claim C3 (amended): with an enabled recorder, a checkpoint call
appends exactly one record named "CHECKPOINT: " ++ n with duration 0 and
the given metadata; its start_time and end_time are two successive clock
readings taken during the call (so end_time is at least start_time for a
monotone clock, but the two need not be equal), it does not raise, and
the scope stack is not read or modified. -/
theorem c3_checkpoint_amended (p : Profiler) (n : String) (m : Metadata)
    (clk : Nat → Rat) (k : Nat) (hp : p.enabled = true) :
    ((runProg (.cp n m) p clk k).1.records =
      p.records ++
        [{ name := "CHECKPOINT: " ++ n, start_time := clk k,
           end_time := clk (k + 1), duration := 0, metadata := m }]) ∧
    ((runProg (.cp n m) p clk k).1.scopeStack = p.scopeStack) ∧
    ((runProg (.cp n m) p clk k).2.2 = false) ∧
    (Monotone clk → clk k ≤ clk (k + 1)) := by
  refine ⟨?_, runProg_stack _ p clk k, ?_, fun hm => hm (Nat.le_succ k)⟩
  · simp [runProg, hp, Profiler.checkpoint]
  · rw [runProg_exn]; rfl

/-- Witness for the amended C3 at a concrete profiler and clock. -/
theorem c3_checkpoint_amended_witness :
    ((runProg (.cp "x" []) (mkProfiler true) (fun i => (i : Rat)) 0).1.records =
      [{ name := "CHECKPOINT: x", start_time := 0, end_time := 1,
         duration := 0, metadata := [] }]) ∧
    ((runProg (.cp "x" []) (mkProfiler true) (fun i => (i : Rat)) 0).1.scopeStack
      = []) := by
  have h := c3_checkpoint_amended (mkProfiler true) "x" []
    (fun i => (i : Rat)) 0 rfl
  refine ⟨?_, h.2.1⟩
  rw [h.1]
  decide

/-- Claim C6: with a disabled recorder, every scoped-timing and
checkpoint call is a pure pass-through: the state (records and scope
stack) is returned unchanged, no clock read happens, the machinery never
raises, and the wrapped block still executes with its failure status
flowing to the caller unchanged. -/
theorem c6_disabled_passthrough (prog : Prog) (p : Profiler)
    (clk : Nat → Rat) (k : Nat) (hp : p.enabled = false) :
    runProg prog p clk k = (p, k, raisesB prog) :=
  runProg_disabled prog p clk k hp

/-- Witness for C6: disabled recorder, a nest with a checkpoint and a
raising body; the state is untouched and the failure is observed. -/
theorem c6_disabled_passthrough_witness :
    runProg (.seq (.cp "x" []) (.scope "A" [] .raiseErr))
      (mkProfiler false) (fun i => (i : Rat)) 0 =
    (mkProfiler false, 0, true) := by
  have h := c6_disabled_passthrough (.seq (.cp "x" []) (.scope "A" [] .raiseErr))
    (mkProfiler false) (fun i => (i : Rat)) 0 rfl
  exact h

/-- Claim C7: the scope stack returns to its pre-call value after any
program (even on failure); with an enabled recorder, a program of
properly paired scoped-timing calls appends exactly one record per scope
entered; and entering a scope grows the stack by exactly one, so the
stack length tracks the nesting depth at every instant. -/
theorem c7_stack_discipline :
    (∀ (prog : Prog) (p : Profiler) (clk : Nat → Rat) (k : Nat),
      (runProg prog p clk k).1.scopeStack = p.scopeStack) ∧
    (∀ (prog : Prog) (p : Profiler) (clk : Nat → Rat) (k : Nat),
      p.enabled = true → timingOnly prog = true →
      (runProg prog p clk k).1.records.length =
        p.records.length + countScopes prog) ∧
    (∀ (p : Profiler) (n : String),
      (p.timeEnter n).1.scopeStack.length = p.scopeStack.length + 1) := by
  refine ⟨fun prog => runProg_stack prog, fun prog => runProg_records_len prog, ?_⟩
  intro p n
  simp [Profiler.timeEnter]

/-- Witness for C7: three scopes entered, three records, empty stack. -/
theorem c7_stack_discipline_witness :
    ((runProg (.seq (.scope "A" [] .skip) (.scope "B" [] (.scope "C" [] .skip)))
        (mkProfiler true) (fun i => (i : Rat)) 0).1.scopeStack = []) ∧
    ((runProg (.seq (.scope "A" [] .skip) (.scope "B" [] (.scope "C" [] .skip)))
        (mkProfiler true) (fun i => (i : Rat)) 0).1.records.length = 3) := by
  constructor
  · exact c7_stack_discipline.1 _ (mkProfiler true) _ 0
  · exact c7_stack_discipline.2.1
      (.seq (.scope "A" [] .skip) (.scope "B" [] (.scope "C" [] .skip)))
      (mkProfiler true) (fun i => (i : Rat)) 0 rfl rfl

/-- Claim C8: the first access to the process-wide cell lazily
constructs one enabled recorder with no records; access with an existing
instance returns that same instance; enable_profiling installs a fresh
enabled recorder with an empty record list whatever was there before;
disable_profiling clears the enabled flag of the existing instance while
keeping its records (and stack) unchanged. -/
theorem c8_singleton_controls :
    (get_profiler none = (some (mkProfiler true), mkProfiler true) ∧
      (mkProfiler true).enabled = true ∧ (mkProfiler true).records = []) ∧
    (∀ p : Profiler, get_profiler (some p) = (some p, p)) ∧
    (∀ g : Option Profiler, enable_profiling g = some (mkProfiler true)) ∧
    (∀ p : Profiler, disable_profiling (some p) =
      some { enabled := false, records := p.records,
             scopeStack := p.scopeStack }) :=
  ⟨⟨rfl, rfl, rfl⟩, fun _ => rfl, fun _ => rfl, fun _ => rfl⟩

/-- Claim C10: disable_profiling on a never-constructed singleton
constructs nothing and has no lasting effect: the cell stays empty, the
next accessor call creates a fresh enabled recorder, and timing through
that recorder still produces a record. -/
theorem c10_disable_before_init :
    disable_profiling none = none ∧
    (get_profiler (disable_profiling none)).2 = mkProfiler true ∧
    (get_profiler (disable_profiling none)).2.enabled = true ∧
    (∀ (n : String) (m : Metadata) (clk : Nat → Rat) (k : Nat),
      (runProg (.scope n m .skip) (get_profiler (disable_profiling none)).2
        clk k).1.records.length = 1) := by
  refine ⟨rfl, rfl, rfl, ?_⟩
  intro n m clk k
  simp [runProg, disable_profiling, get_profiler, mkProfiler,
    Profiler.timeEnter, Profiler.timeExit]

/-- Claim C4: statistics extraction maps each top-level name (the part
of the qualified name before the first " > ") to total/count/avg/min/max
over that group's durations, excluding checkpoint records: it returns
the documented result on the three-record example, the empty mapping on
an empty record list, assigns a record named "fetch > parse > json" to
group "fetch" only, and is unaffected by checkpoint calls. -/
theorem c4_get_stats_spec :
    ((Profiler.mk true
        [⟨"op", 0, 1, 1, []⟩, ⟨"op", 0, 3, 3, []⟩,
         ⟨"CHECKPOINT: x", 0, 0, 0, []⟩] []).get_stats =
      [("op", ⟨4, 2, 2, 1, 3⟩)]) ∧
    (∀ p : Profiler, p.records = [] → p.get_stats = []) ∧
    (∀ (en : Bool) (st : List String) (t1 t2 d : Rat) (m : Metadata),
      (Profiler.mk en [⟨"fetch > parse > json", t1, t2, d, m⟩] st).get_stats =
        [("fetch", ⟨d, 1, d, d, d⟩)]) ∧
    (∀ (p : Profiler) (n : String) (m : Metadata) (t1 t2 : Rat),
      (p.checkpoint n m t1 t2).get_stats = p.get_stats) := by
  refine ⟨?_, ?_, ?_, fun p n m t1 t2 => checkpoint_get_stats p n m t1 t2⟩
  · norm_num [Profiler.get_stats, groupDurations, updGroup, topLevel,
      statsOfDurations, listMin, listMax, isCheckpointName, strContains,
      hasSeg, leadSeg, takeUntilSeg]
    decide
  · intro p h
    simp [Profiler.get_stats, h]
  · intro en st t1 t2 d m
    have h1 : isCheckpointName "fetch > parse > json" = false := by decide
    have h2 : topLevel "fetch > parse > json" = "fetch" := by decide
    simp [Profiler.get_stats, groupDurations, updGroup, h1, h2,
      statsOfDurations, listMin, listMax]

/-- Witness for C4: the empty-record and checkpoint-insensitivity parts
at concrete inputs. -/
theorem c4_get_stats_spec_witness :
    (mkProfiler true).get_stats = [] ∧
    ((mkProfiler true).checkpoint "x" [] 0 1).get_stats = [] := by
  refine ⟨c4_get_stats_spec.2.1 (mkProfiler true) rfl, ?_⟩
  rw [c4_get_stats_spec.2.2.2 (mkProfiler true) "x" [] 0 1]
  exact c4_get_stats_spec.2.1 (mkProfiler true) rfl

/-- Claim C5: the export payload has total_time equal to the sum of all
record durations (checkpoints included, contributing 0), num_operations
equal to the record count, and the records in original insertion order
in dictionary form, each with duration_seconds the in-memory duration
rounded to 3 decimals. -/
theorem c5_export_schema (p : Profiler) :
    ((p.export_json).total_time = (p.records.map TimingRecord.duration).sum) ∧
    ((p.export_json).num_operations = p.records.length) ∧
    ((p.export_json).records = p.records.map TimingRecord.to_dict) ∧
    (∀ r : TimingRecord, r ∈ p.records →
      (TimingRecord.to_dict r).duration_seconds = round3 r.duration) ∧
    (∀ (n : String) (m : Metadata) (t1 t2 : Rat),
      ((p.checkpoint n m t1 t2).export_json).total_time =
        (p.export_json).total_time) := by
  refine ⟨rfl, rfl, rfl, fun r _ => rfl, ?_⟩
  intro n m t1 t2
  cases hp : p.enabled with
  | false => simp [Profiler.checkpoint, hp]
  | true => simp [Profiler.checkpoint, hp, Profiler.export_json]

/-- Witness for C5 at a one-record profiler. -/
theorem c5_export_schema_witness :
    (((Profiler.mk true [⟨"op", 0, 1, 1, []⟩] []).export_json).total_time = 1) ∧
    (((Profiler.mk true [⟨"op", 0, 1, 1, []⟩] []).export_json).num_operations
      = 1) ∧
    ((TimingRecord.to_dict ⟨"op", 0, 1, 1, []⟩).duration_seconds = round3 1) := by
  have h := c5_export_schema (Profiler.mk true [⟨"op", 0, 1, 1, []⟩] [])
  refine ⟨?_, h.2.1, h.2.2.2.1 ⟨"op", 0, 1, 1, []⟩ (by simp)⟩
  rw [h.1]
  norm_num

/-- Claim C9: exclusion from the summary aggregates and from statistics
extraction is decided by the substring test `"CHECKPOINT" in name`, not
by the "CHECKPOINT: " prefix: any record whose name contains the
substring anywhere — including an ordinary timed scope named that way —
is excluded from the grand total, the per-operation aggregation, and
statistics extraction, never appears in the slowest-records list, and is
listed in the checkpoints section instead. -/
theorem c9_substring_exclusion :
    (∀ (rs : List TimingRecord) (r : TimingRecord),
      isCheckpointName r.name = true →
      summaryTotalTime (rs ++ [r]) = summaryTotalTime rs ∧
      summaryByOperation (rs ++ [r]) = summaryByOperation rs ∧
      (∀ (en : Bool) (st : List String),
        (Profiler.mk en (rs ++ [r]) st).get_stats =
          (Profiler.mk en rs st).get_stats) ∧
      r ∈ summaryCheckpoints (rs ++ [r])) ∧
    (∀ (rs : List TimingRecord) (x : TimingRecord),
      x ∈ summarySlowest rs → isCheckpointName x.name = false) := by
  refine ⟨?_, fun rs x hx => summarySlowest_not_cp rs x hx⟩
  intro rs r h
  exact ⟨summaryTotalTime_concat_cp rs r h,
    summaryByOperation_concat_cp rs r h,
    fun en st => get_stats_concat_cp en st rs r h,
    mem_summaryCheckpoints_concat rs r h⟩

/-- Witness for C9: a timed record named "load CHECKPOINT data" (not
prefix-marked) vanishes from the grand total and statistics, while a
record in the slowest list has no "CHECKPOINT" substring. -/
theorem c9_substring_exclusion_witness :
    (isCheckpointName "load CHECKPOINT data" = true) ∧
    (summaryTotalTime [⟨"load CHECKPOINT data", 0, 1, 1, []⟩] =
      summaryTotalTime []) ∧
    ((Profiler.mk true [⟨"load CHECKPOINT data", 0, 1, 1, []⟩] []).get_stats =
      (Profiler.mk true [] []).get_stats) ∧
    (isCheckpointName "op" = false) := by
  have h := c9_substring_exclusion.1 []
    ⟨"load CHECKPOINT data", 0, 1, 1, []⟩ (by decide)
  refine ⟨by decide, ?_, ?_, ?_⟩
  · simpa using h.1
  · simpa using h.2.2.1 true []
  · exact c9_substring_exclusion.2 [⟨"op", 0, 1, 1, []⟩]
      ⟨"op", 0, 1, 1, []⟩ (by decide)
